import Mathlib

/-!
A verification development for the Dockerfile composition engine of the
dockta repository.  The TypeScript sources embedded here are
`src/Generator.ts` (the build-file composer, `Generator.generate`) and
`src/RGenerator.ts` (the R ecosystem adapter).  Methods overridable by
subclasses become fields of an explicit `Adapter` record; the composer
`generate` is a pure function of that record, the comments flag, and the
version / timestamp strings that the source reads from ambient state and
places only inside comment text.  Filesystem collaborators (`exists`,
`glob`, `write`, declared on the missing `Doer` base class) are modelled
from the spec as explicit inputs and an explicit write log.
-/

namespace Dockta

/-! ### JavaScript semantics helpers -/

/-- JS truthiness of a `string | undefined` value: `undefined` and the
empty string are falsy. -/
def jsTruthy : Option String → Bool
  | none => false
  | some s => !(s == "")

/-- JS template-literal interpolation of a `string | undefined` value:
`undefined` is rendered as the literal text `undefined`. -/
def jsInterp : Option String → String
  | none => "undefined"
  | some s => s

/-- Core of `String.prototype.replace` with a *string* pattern: only the
first occurrence of `pat` is replaced. -/
def jsReplaceFirstAux (pat repl : List Char) : List Char → List Char
  | [] => []
  | c :: rest =>
    if (c :: rest).take pat.length = pat then repl ++ (c :: rest).drop pat.length
    else c :: jsReplaceFirstAux pat repl rest

/-- JS `s.replace(pat, repl)` with a string pattern (first occurrence only). -/
def jsReplaceFirst (s pat repl : String) : String :=
  ⟨jsReplaceFirstAux pat.data repl.data s.data⟩

/-- JS `String.prototype.split` with a single-character separator. -/
def splitOnChar (sep : Char) : List Char → List (List Char)
  | [] => [[]]
  | c :: rest =>
    match splitOnChar sep rest with
    | [] => [[]]
    | grp :: grps => if c = sep then [] :: grp :: grps else (c :: grp) :: grps

/-- JS `s.split(':')`, as used by `Generator.baseVersionName`. -/
def jsSplitColon (s : String) : List String :=
  (splitOnChar ':' s.data).map (fun l => ⟨l⟩)

/-! ### Data model (`@stencila/schema`) -/

/-- A node of the dependency forest: `SoftwarePackage` from the schema.
All three attributes are optional in the input format. -/
inductive SoftwarePackage : Type where
  | mk (name : Option String) (runtimePlatform : Option String)
      (softwareRequirements : Option (List SoftwarePackage))

def SoftwarePackage.name : SoftwarePackage → Option String
  | .mk n _ _ => n

def SoftwarePackage.runtimePlatform : SoftwarePackage → Option String
  | .mk _ r _ => r

def SoftwarePackage.softwareRequirements : SoftwarePackage → Option (List SoftwarePackage)
  | .mk _ _ s => s

/-- The project description bound to a generator: `SoftwareEnvironment`. -/
structure SoftwareEnvironment : Type where
  name : Option String
  datePublished : Option String
  softwareRequirements : Option (List SoftwarePackage)

/-! ### Dependency tree walk (`RGenerator.aptPackages`, inner `find`) -/

mutual
/-- The inner `find` of `RGenerator.aptPackages`: returns, in push order,
the names recorded while scanning `pkg`.  The source returns immediately
when `pkg.runtimePlatform !== 'R' || !pkg.softwareRequirements`. -/
def findDebs : SoftwarePackage → List String
  | .mk _ rtp reqs =>
    if rtp != some "R" then []
    else
      match reqs with
      | none => []
      | some subs => findDebsList subs
termination_by p => sizeOf p

/-- The `for (let subpkg of pkg.softwareRequirements)` loop body of `find`:
a `deb`-tagged child has its name pushed (`subpkg.name || ''`), any other
child is recursed into. -/
def findDebsList : List SoftwarePackage → List String
  | [] => []
  | subpkg :: rest =>
    (if subpkg.runtimePlatform == some "deb" then [subpkg.name.getD ""]
     else findDebs subpkg) ++ findDebsList rest
termination_by l => sizeOf l
end

/-- `RGenerator.aptPackages`: runs `find` over every top-level entry of
`environ.softwareRequirements || []` and appends the base package. -/
def rAptPackages (environ : SoftwareEnvironment) (_sysVersion : String) : List String :=
  ((environ.softwareRequirements.getD []).flatMap findDebs) ++ ["r-base"]

mutual
/-- Modelled from the spec (§4.2), instantiated at the R adapter's tags:
at each node, if the node's `runtimePlatform` does not match the
ecosystem tag `R`, stop descending; otherwise for each child, if the
child is native-system-tagged (`deb`) record its name (empty string when
absent), else recurse into the child.  Recorded names follow input
traversal order and duplicates are kept. -/
def specWalk : SoftwarePackage → List String
  | .mk _ rtp none => if rtp == some "R" then specWalkChildren [] else []
  | .mk _ rtp (some children) =>
    if rtp == some "R" then specWalkChildren children else []
termination_by p => sizeOf p

/-- Modelled from the spec (§4.2): the per-child step of the walk. -/
def specWalkChildren : List SoftwarePackage → List String
  | [] => []
  | child :: rest =>
    (if child.runtimePlatform == some "deb" then [child.name.getD ""]
     else specWalk child) ++ specWalkChildren rest
termination_by l => sizeOf l
end

/-- The spec's §8 example forest: R-tagged A has a native child B and an
R-tagged child C whose child D is native; a different-ecosystem node has
a native child E reachable only through it. -/
def exampleForestEnv : SoftwareEnvironment :=
  ⟨none, none, some [
    SoftwarePackage.mk (some "A") (some "R") (some [
      SoftwarePackage.mk (some "B") (some "deb") none,
      SoftwarePackage.mk (some "C") (some "R") (some [
        SoftwarePackage.mk (some "D") (some "deb") none])]),
    SoftwarePackage.mk (some "P") (some "python") (some [
      SoftwarePackage.mk (some "E") (some "deb") none])]⟩

/-! ### The Adapter contract (`Generator`'s overridable methods) -/

/-- The capability set a concrete generator supplies: each field is one
of the methods of `Generator` that subclasses may override, as a pure
function of the resolved base identifier (`sysVersion`).  `applies` is
the ecosystem-relevance predicate evaluated on the bound project. -/
structure Adapter : Type where
  applies : Bool
  baseName : String
  baseVersion : String
  envVars : String → List (String × String)
  aptKeysCommand : String → Option String
  aptRepos : String → List String
  aptPackages : String → List String
  stencilaInstall : String → Option String
  installFiles : String → List (String × String)
  installCommand : String → Option String
  projectFiles : String → List (String × String)
  runCommand : String → Option String

/-- `Generator.baseIdentifier`: `name[:version]`, the colon omitted when
the version is the empty string. -/
def baseIdentifier (a : Adapter) : String :=
  a.baseName ++ (if a.baseVersion == "" then "" else ":") ++ a.baseVersion

/-- The `${key}="${value.replace('"', '\\"')}"` assignment built for each
environment variable pair by `Generator.generate`. -/
def envPair (kv : String × String) : String :=
  kv.1 ++ "=\"" ++ jsReplaceFirst kv.2 "\"" "\\\"" ++ "\""

/-- `Generator.generate`: the build-file composer.  `version` is the
package version constant and `now` the current timestamp, both of which
the source interpolates only into comment text.  The final
`this.write('.Dockerfile', dockerfile)` persists the same returned text
and does not alter it. -/
def generate (a : Adapter) (comments : Bool) (version now : String) : String :=
  let dockerfile :=
    (if comments then
      "# Generated by Dockter " ++ version ++ " at " ++ now ++
      "\n# To stop Dockter generating this file and start editing it yourself,\n# rename it to \"Dockerfile\".\n"
    else "")
  let dockerfile := dockerfile ++
    (if comments then "\n# This tells Docker which base image to use.\n" else "")
  let baseId := baseIdentifier a
  let dockerfile := dockerfile ++ ("FROM " ++ baseId ++ "\n")
  if !a.applies then dockerfile else
  let envVars := a.envVars baseId
  let dockerfile := dockerfile ++
    (if envVars.length != 0 then
      (if comments then "\n# This section sets environment variables within the image." else "")
      ++ "\nENV " ++ String.intercalate " \\\n    " (envVars.map envPair) ++ "\n"
    else "")
  let aptRepos := a.aptRepos baseId
  let aptKeysCommand := a.aptKeysCommand baseId
  let dockerfile := dockerfile ++
    (if aptRepos.length != 0 || jsTruthy aptKeysCommand then
      (if comments then "\n# This section installs system packages needed to add extra system repositories." else "")
      ++ "\nRUN apt-get update \\\n && DEBIAN_FRONTEND=noninteractive apt-get install -y \\\n      apt-transport-https \\\n      ca-certificates \\\n      curl \\\n      software-properties-common\n"
    else "")
  let dockerfile := dockerfile ++
    (if aptRepos.length != 0 then
      (if comments then "\n# This section adds system repositories required to install extra system packages." else "")
      ++ "\nRUN " ++ String.intercalate " \\\n && " (aptRepos.map (fun repo => "apt-add-repository \"" ++ repo ++ "\"")) ++ "\n"
    else "")
  let dockerfile := dockerfile ++
    (if jsTruthy aptKeysCommand then "RUN " ++ jsInterp aptKeysCommand ++ "\n" else "")
  let aptPackages := a.aptPackages baseId
  let dockerfile := dockerfile ++
    (if aptPackages.length != 0 then
      (if comments then "\n# This section installs system packages required for your project\n# If you need extra system packages add them here." else "")
      ++ "\nRUN apt-get update \\\n && DEBIAN_FRONTEND=noninteractive apt-get install -y \\\n      "
      ++ String.intercalate " \\\n      " aptPackages
      ++ " \\\n && apt-get autoremove -y \\\n && apt-get clean \\\n && rm -rf /var/lib/apt/lists/*\n"
    else "")
  let stencilaInstall := a.stencilaInstall baseId
  let dockerfile := dockerfile ++
    (if jsTruthy stencilaInstall then
      (if comments then "\n# This section runs commands to install Stencila execution hosts." else "")
      ++ "\nRUN " ++ jsInterp stencilaInstall ++ "\n"
    else "")
  let dockerfile := dockerfile ++
    (if comments then "\n# It\x27s good practice to run Docker images as a non-root user.\n# This section creates a new user, sets it as the user for the image, and it\x27s\n# home directory as the working directory." else "")
  let dockerfile := dockerfile ++
    "\nRUN useradd --create-home --uid 1001 -s /bin/bash dockteruser\nUSER dockteruser\nWORKDIR /home/dockteruser\n"
  let installFiles := a.installFiles baseId
  let installCommand := a.installCommand baseId
  let projectFiles := a.projectFiles baseId
  let runCommand := a.runCommand baseId
  let dockerfile := dockerfile ++
    (if jsTruthy installCommand then
      (if comments then "\n# This is a special comment to tell Dockter to manage the build from here on" else "")
      ++ "\n# dockter\n"
    else "")
  let dockerfile := dockerfile ++
    (if installFiles.length != 0 then
      (if comments then "\n# This section copies package requirement files into the image" else "")
      ++ "\n" ++ String.intercalate "\n" (installFiles.map (fun sd => "COPY " ++ sd.1 ++ " " ++ sd.2)) ++ "\n"
    else "")
  let dockerfile := dockerfile ++
    (if jsTruthy installCommand then
      (if comments then "\n# This section runs commands to install the packages specified in the requirement file/s" else "")
      ++ "\nRUN " ++ jsInterp installCommand ++ "\n"
    else "")
  let dockerfile := dockerfile ++
    (if projectFiles.length != 0 then
      (if comments then "\n# This section copies your project\x27s files into the image" else "")
      ++ "\n" ++ String.intercalate "\n" (projectFiles.map (fun sd => "COPY " ++ sd.1 ++ " " ++ sd.2)) ++ "\n"
    else "")
  let dockerfile := dockerfile ++
    (if jsTruthy runCommand then
      (if comments then "\n# This tells Docker the default command to run when the container is started" else "")
      ++ "\nCMD " ++ jsInterp runCommand ++ "\n"
    else "")
  dockerfile

/-- The defaults supplied by the base `Generator` class: `applies` is
false, the base image is `ubuntu:18.04`, and every other capability is
empty or absent. -/
def defaultAdapter : Adapter where
  applies := false
  baseName := "ubuntu"
  baseVersion := "18.04"
  envVars := fun _ => []
  aptKeysCommand := fun _ => none
  aptRepos := fun _ => []
  aptPackages := fun _ => []
  stencilaInstall := fun _ => none
  installFiles := fun _ => []
  installCommand := fun _ => none
  projectFiles := fun _ => []
  runCommand := fun _ => none

/-! ### The fixed section order of spec §4.3 -/

/-- The leading comment material preceding every section (generation
banner and base-image comment), empty when comments are off. -/
def generateHeader (comments : Bool) (version now : String) : String :=
  (if comments then
    "# Generated by Dockter " ++ version ++ " at " ++ now ++
    "\n# To stop Dockter generating this file and start editing it yourself,\n# rename it to \"Dockerfile\".\n"
  else "") ++
  (if comments then "\n# This tells Docker which base image to use.\n" else "")

/-- §4.3 step 1: base image declaration, always emitted. -/
def sectionBaseImage (a : Adapter) : String :=
  "FROM " ++ baseIdentifier a ++ "\n"

/-- §4.3 step 3: environment section, one continuation-joined `ENV`. -/
def sectionEnv (a : Adapter) (comments : Bool) : String :=
  let envVars := a.envVars (baseIdentifier a)
  if envVars.length != 0 then
    (if comments then "\n# This section sets environment variables within the image." else "")
    ++ "\nENV " ++ String.intercalate " \\\n    " (envVars.map envPair) ++ "\n"
  else ""

/-- §4.3 step 4: extra-repository bootstrap tools, emitted only when
there are repositories to add or keys to register. -/
def sectionRepoBootstrap (a : Adapter) (comments : Bool) : String :=
  if (a.aptRepos (baseIdentifier a)).length != 0 || jsTruthy (a.aptKeysCommand (baseIdentifier a)) then
    (if comments then "\n# This section installs system packages needed to add extra system repositories." else "")
    ++ "\nRUN apt-get update \\\n && DEBIAN_FRONTEND=noninteractive apt-get install -y \\\n      apt-transport-https \\\n      ca-certificates \\\n      curl \\\n      software-properties-common\n"
  else ""

/-- §4.3 step 5: one `apt-add-repository` statement per repository. -/
def sectionRepoAdd (a : Adapter) (comments : Bool) : String :=
  let aptRepos := a.aptRepos (baseIdentifier a)
  if aptRepos.length != 0 then
    (if comments then "\n# This section adds system repositories required to install extra system packages." else "")
    ++ "\nRUN " ++ String.intercalate " \\\n && " (aptRepos.map (fun repo => "apt-add-repository \"" ++ repo ++ "\"")) ++ "\n"
  else ""

/-- §4.3 step 6: key registration command. -/
def sectionKeyRegistration (a : Adapter) : String :=
  if jsTruthy (a.aptKeysCommand (baseIdentifier a)) then
    "RUN " ++ jsInterp (a.aptKeysCommand (baseIdentifier a)) ++ "\n"
  else ""

/-- §4.3 step 7: system package install plus cache cleanup. -/
def sectionSystemPackages (a : Adapter) (comments : Bool) : String :=
  let aptPackages := a.aptPackages (baseIdentifier a)
  if aptPackages.length != 0 then
    (if comments then "\n# This section installs system packages required for your project\n# If you need extra system packages add them here." else "")
    ++ "\nRUN apt-get update \\\n && DEBIAN_FRONTEND=noninteractive apt-get install -y \\\n      "
    ++ String.intercalate " \\\n      " aptPackages
    ++ " \\\n && apt-get autoremove -y \\\n && apt-get clean \\\n && rm -rf /var/lib/apt/lists/*\n"
  else ""

/-- §4.3 step 8: ecosystem bootstrap, run as root. -/
def sectionEcosystemBootstrap (a : Adapter) (comments : Bool) : String :=
  if jsTruthy (a.stencilaInstall (baseIdentifier a)) then
    (if comments then "\n# This section runs commands to install Stencila execution hosts." else "")
    ++ "\nRUN " ++ jsInterp (a.stencilaInstall (baseIdentifier a)) ++ "\n"
  else ""

/-- §4.3 step 9: privilege drop (useradd / USER / WORKDIR), always
emitted once `applies()` held. -/
def sectionPrivilegeDrop (comments : Bool) : String :=
  (if comments then "\n# It\x27s good practice to run Docker images as a non-root user.\n# This section creates a new user, sets it as the user for the image, and it\x27s\n# home directory as the working directory." else "")
  ++ "\nRUN useradd --create-home --uid 1001 -s /bin/bash dockteruser\nUSER dockteruser\nWORKDIR /home/dockteruser\n"

/-- §4.3 step 10: the `# dockter` managed-install marker. -/
def sectionManagedMarker (a : Adapter) (comments : Bool) : String :=
  if jsTruthy (a.installCommand (baseIdentifier a)) then
    (if comments then "\n# This is a special comment to tell Dockter to manage the build from here on" else "")
    ++ "\n# dockter\n"
  else ""

/-- §4.3 step 11: install-file staging (`COPY` per pair). -/
def sectionInstallFilesCopy (a : Adapter) (comments : Bool) : String :=
  let installFiles := a.installFiles (baseIdentifier a)
  if installFiles.length != 0 then
    (if comments then "\n# This section copies package requirement files into the image" else "")
    ++ "\n" ++ String.intercalate "\n" (installFiles.map (fun sd => "COPY " ++ sd.1 ++ " " ++ sd.2)) ++ "\n"
  else ""

/-- §4.3 step 12: the install command. -/
def sectionInstallRun (a : Adapter) (comments : Bool) : String :=
  if jsTruthy (a.installCommand (baseIdentifier a)) then
    (if comments then "\n# This section runs commands to install the packages specified in the requirement file/s" else "")
    ++ "\nRUN " ++ jsInterp (a.installCommand (baseIdentifier a)) ++ "\n"
  else ""

/-- §4.3 step 13: project-file staging (`COPY` per pair). -/
def sectionProjectFilesCopy (a : Adapter) (comments : Bool) : String :=
  let projectFiles := a.projectFiles (baseIdentifier a)
  if projectFiles.length != 0 then
    (if comments then "\n# This section copies your project\x27s files into the image" else "")
    ++ "\n" ++ String.intercalate "\n" (projectFiles.map (fun sd => "COPY " ++ sd.1 ++ " " ++ sd.2)) ++ "\n"
  else ""

/-- §4.3 step 14: the default run command. -/
def sectionRunCommand (a : Adapter) (comments : Bool) : String :=
  if jsTruthy (a.runCommand (baseIdentifier a)) then
    (if comments then "\n# This tells Docker the default command to run when the container is started" else "")
    ++ "\nCMD " ++ jsInterp (a.runCommand (baseIdentifier a)) ++ "\n"
  else ""

/-- The fixed section order of spec §4.3: base image, environment,
repository bootstrap, repository-add, key registration, system-package
install, ecosystem bootstrap, privilege drop, managed-install marker,
install-file staging, install command, project-file staging, run
command.  An empty section contributes the empty string. -/
def composerSections (a : Adapter) (comments : Bool) : List String :=
  [sectionBaseImage a,
   sectionEnv a comments,
   sectionRepoBootstrap a comments,
   sectionRepoAdd a comments,
   sectionKeyRegistration a,
   sectionSystemPackages a comments,
   sectionEcosystemBootstrap a comments,
   sectionPrivilegeDrop comments,
   sectionManagedMarker a comments,
   sectionInstallFilesCopy a comments,
   sectionInstallRun a comments,
   sectionProjectFilesCopy a comments,
   sectionRunCommand a comments]

/-! ### The R ecosystem adapter (`RGenerator`) -/

/-- Modelled from the spec (§6): the filesystem collaborator the core
calls but does not implement — `exists(relativePath)` and the ordered
listing produced by `glob('**/*.R')`, both scoped to the project
directory. -/
structure FileSystem : Type where
  fileExists : String → Bool
  globR : List String

/-- The `date` field set by `RGenerator`'s constructor:
`environ.datePublished`, falling back to yesterday's date (a value
resolved at construction time, passed here as `yesterday`) when that is
absent or empty. -/
def rDate (environ : SoftwareEnvironment) (yesterday : String) : String :=
  match environ.datePublished with
  | none => yesterday
  | some d => if d == "" then yesterday else d

/-- `RGenerator.baseVersion`: requires ubuntu 16.04 for MRAN support. -/
def rBaseVersion : String := "16.04"

/-- `RGenerator.envVars`: timezone and the non-root R library path. -/
def rEnvVars (_sysVersion : String) : List (String × String) :=
  [("TZ", "Etc/UTC"), ("R_LIBS_USER", "~/R")]

/-- `RGenerator.aptKeysCommand`. -/
def rAptKeysCommand (_sysVersion : String) : Option String :=
  some "apt-key adv --keyserver keyserver.ubuntu.com --recv-keys 51716619E084DAB9"

/-- The property keys every plain JS object literal inherits from
`Object.prototype`: bracket lookup on the codename table finds these on
the prototype chain and returns the inherited member — a truthy value,
not `undefined`. -/
def objectPrototypeKeys : List String :=
  ["constructor", "hasOwnProperty", "isPrototypeOf", "propertyIsEnumerable",
   "toLocaleString", "toString", "valueOf", "__proto__", "__defineGetter__",
   "__defineSetter__", "__lookupGetter__", "__lookupSetter__"]

/-- The result of a JS bracket lookup on a plain object literal of
string values: `undefined`, an own-property string, or a member
inherited from `Object.prototype` under the given key. -/
inductive JsLookup : Type where
  | undef
  | str (s : String)
  | inherited (key : String)
deriving DecidableEq

/-- Template-literal rendering of a bracket-lookup result: `undefined`
becomes the literal text `undefined`, a string renders as itself, and an
inherited `Object.prototype` member renders per ECMAScript `ToString`:
the `__proto__` getter yields `Object.prototype` (`[object Object]`),
`constructor` is the `Object` function, and the remaining keys are
built-in functions named after their key. -/
def jsInterpLookup : JsLookup → String
  | .undef => "undefined"
  | .str s => s
  | .inherited key =>
    if key == "__proto__" then "[object Object]"
    else if key == "constructor" then "function Object() \x7b [native code] \x7d"
    else "function " ++ key ++ "() \x7b [native code] \x7d"

/-- `Generator.baseVersionName`: splits the identifier on `:` and does a
JS bracket lookup of the version part on the codename object literal.
An own property yields its codename; any other key falls through to the
prototype chain, so the keys `Object.prototype` provides yield the
inherited member, and only the remaining keys — including a missing
version part, whose `undefined` key stringifies to `"undefined"` —
yield `undefined`. -/
def baseVersionName (baseId : String) : JsLookup :=
  match (jsSplitColon baseId)[1]? with
  | some "14.04" => JsLookup.str "trusty"
  | some "16.04" => JsLookup.str "xenial"
  | some "18.04" => JsLookup.str "bionic"
  | some v => if objectPrototypeKeys.contains v then JsLookup.inherited v else JsLookup.undef
  | none => JsLookup.undef

/-- `RGenerator.aptRepos`: the MRAN snapshot repository line.  The
template literal renders an undefined codename as the literal text
`undefined` (and an inherited member per `jsInterpLookup`). -/
def rAptRepos (date : String) (base : String) : List String :=
  ["deb https://mran.microsoft.com/snapshot/" ++ date ++ "/bin/linux/ubuntu "
    ++ jsInterpLookup (baseVersionName base) ++ "/"]

/-- `RGenerator.stencilaInstall`. -/
def rStencilaInstall (_sysVersion : String) : Option String :=
  some ("apt-get update \\\n && apt-get install -y  zlib1g-dev libxml2-dev pkg-config \\\n && apt-get autoremove -y \\\n && apt-get clean \\\n && rm -rf /var/lib/apt/lists/* \\\n && Rscript -e \x27install.packages(\"devtools\")\x27 \\\n && Rscript -e \x27source(\"https://bioconductor.org/biocLite.R\"); biocLite(\"graph\")\x27 \\\n && Rscript -e \x27devtools::install_github(\"r-lib/pkgbuild\")\x27 \\\n && Rscript -e \x27devtools::install_github(\"stencila/r\")\x27")

/-- Modelled from the spec: `Doer.filterPackages` (declared on the
missing base class) selects the environment's top-level
`softwareRequirements` whose `runtimePlatform` equals the given tag, as
exercised by the §8 scenario. -/
def filterPackages (environ : SoftwareEnvironment) (runtimePlatform : String) :
    List SoftwarePackage :=
  (environ.softwareRequirements.getD []).filter
    (fun p => p.runtimePlatform == some runtimePlatform)

/-- JS `c` matching the regex character class `[^a-zA-Z0-9]`. -/
def isAlnum (c : Char) : Bool :=
  (c ≥ 'a' && c ≤ 'z') || (c ≥ 'A' && c ≤ 'Z') || (c ≥ '0' && c ≤ '9')

/-- JS `s.replace(/[^a-zA-Z0-9]/,'')`: a regex without the global flag
removes only the first non-alphanumeric character. -/
def removeFirstNonAlnum : List Char → List Char
  | [] => []
  | c :: rest => if isAlnum c then c :: removeFirstNonAlnum rest else rest

/-- The `.DESCRIPTION` text synthesized by `RGenerator.installFiles`
from the environment's name and its R packages; `nowIso` is the
`new Date().toISOString()` stamp placed in the Description field. -/
def rDescription (environ : SoftwareEnvironment) (date nowIso : String) : String :=
  let name := String.mk (removeFirstNonAlnum
    (match environ.name with
     | none => "unnamed"
     | some s => if s == "" then "unnamed" else s).data)
  let pkgs := (filterPackages environ "R").map (fun pkg => pkg.name.getD "")
  "Package: " ++ name ++ "\nVersion: 1.0.0\nDate: " ++ date ++ "\nImports:\n  "
    ++ String.intercalate ",\n  " pkgs
    ++ "\nDescription: Generated by Dockter " ++ nowIso
    ++ ".\n  To stop Dockter generating this file and start editing it yourself, rename it to \"DESCRIPTION\".\n"

/-- `RGenerator.installFiles`: a user-authored `install.R` wins,
otherwise a user `DESCRIPTION`, otherwise a `.DESCRIPTION` is
synthesized and written through the filesystem collaborator.  The first
component is the list of copies returned, the second the write log of
`this.write` calls performed. -/
def rInstallFiles (fs : FileSystem) (environ : SoftwareEnvironment) (date nowIso : String) :
    List (String × String) × List (String × String) :=
  if fs.fileExists "install.R" then ([("install.R", "install.R")], [])
  else if fs.fileExists "DESCRIPTION" then ([("DESCRIPTION", "DESCRIPTION")], [])
  else ([(".DESCRIPTION", "DESCRIPTION")],
        [(".DESCRIPTION", rDescription environ date nowIso)])

/-- `RGenerator.installCommand`: starts from `mkdir ~/R`, appends the
user install script when present, else the remote install-from-
DESCRIPTION script when a descriptor exists, and always returns the
accumulated command. -/
def rInstallCommand (fs : FileSystem) : Option String :=
  some ("mkdir ~/R" ++
    (if fs.fileExists "install.R" then " \\\n && Rscript install.R"
     else if fs.fileExists "DESCRIPTION" || fs.fileExists ".DESCRIPTION" then
       " \\\n && bash -c \"Rscript <(curl -sL https://unpkg.com/@stencila/dockter/src/install.R)\""
     else ""))

/-- `RGenerator.projectFiles`: copies every globbed `*.R` file to the
same relative path. -/
def rProjectFiles (rfiles : List String) : List (String × String) :=
  rfiles.map (fun file => (file, file))

/-- `RGenerator.runCommand`: no command when the glob is empty,
otherwise `Rscript` on `main.R`, else `cmd.R`, else the first file of
the listing. -/
def rRunCommand (rfiles : List String) : Option String :=
  match rfiles with
  | [] => none
  | f0 :: _ =>
    some ("Rscript " ++
      (if rfiles.contains "main.R" then "main.R"
       else if rfiles.contains "cmd.R" then "cmd.R"
       else f0))

/-- The `RGenerator` instance as an `Adapter` record.  `date` is the
constructor-resolved `rDate` value, `ap` the ecosystem-relevance
predicate (its wiring lives on the missing `Doer` base class, so it is
an explicit input here), and `nowIso` the construction-time timestamp
used only inside the synthesized descriptor text. -/
def rAdapter (environ : SoftwareEnvironment) (fs : FileSystem) (date : String)
    (ap : Bool) (nowIso : String) : Adapter where
  applies := ap
  baseName := "ubuntu"
  baseVersion := rBaseVersion
  envVars := rEnvVars
  aptKeysCommand := rAptKeysCommand
  aptRepos := fun base => rAptRepos date base
  aptPackages := fun sysVersion => rAptPackages environ sysVersion
  stencilaInstall := rStencilaInstall
  installFiles := fun _ => (rInstallFiles fs environ date nowIso).1
  installCommand := fun _ => rInstallCommand fs
  projectFiles := fun _ => rProjectFiles fs.globR
  runCommand := fun _ => rRunCommand fs.globR

/-! ### Concrete sample data and C4 instrumentation -/

/-- A sample environment: one R package, as in the §8 scenario. -/
def sampleEnv : SoftwareEnvironment :=
  ⟨some "myproject", some "2018-10-05",
   some [SoftwarePackage.mk (some "ggplot2") (some "R") none]⟩

/-- A sample filesystem: no install files on disk, one globbed R file. -/
def sampleFs : FileSystem := ⟨fun _ => false, ["main.R"]⟩

/-- A filesystem holding a user-authored `install.R`. -/
def fsInstallR : FileSystem := ⟨fun p => p == "install.R", []⟩

/-- A filesystem holding a user `DESCRIPTION` but no `install.R`. -/
def fsDescOnly : FileSystem := ⟨fun p => p == "DESCRIPTION", []⟩

/-- The R adapter reconfigured (as a subclass could) with a base version
missing from `baseVersionName`'s table. -/
def rAdapterUnknownBase : Adapter :=
  { rAdapter sampleEnv sampleFs "2018-10-05" true "T" with baseVersion := "20.04" }

/-- Modelled from the spec (§3/§8): a value with every embedded
double-quote escaped, so the emitted assignment stays one quoted token
(rendered with the backslash escaping the composer's quoting uses; the
spec's data model describes the escape as doubling). -/
def escapeAllQuotes (s : String) : String :=
  ⟨s.data.flatMap (fun c => if c = '"' then ['\\', '"'] else [c])⟩

/-- Counts double-quote characters that are not preceded by an escaping
backslash: a well-formed single double-quoted shell token contains
exactly two (its delimiters). -/
def unescapedQuotes : List Char → Nat
  | [] => 0
  | '\\' :: _ :: rest => unescapedQuotes rest
  | '"' :: rest => 1 + unescapedQuotes rest
  | _ :: rest => unescapedQuotes rest

/-! ### Theorems -/

theorem findDebsList_eq_of_ih (l : List SoftwarePackage)
    (ih : ∀ p ∈ l, findDebs p = specWalk p) :
    findDebsList l = specWalkChildren l := by
  induction l with
  | nil => simp [findDebsList, specWalkChildren]
  | cons c rest ihl =>
    have hc := ih c (List.mem_cons_self _ _)
    have hr : ∀ p ∈ rest, findDebs p = specWalk p :=
      fun p hp => ih p (List.mem_cons_of_mem _ hp)
    simp only [findDebsList, specWalkChildren, hc, ihl hr]

theorem findDebs_eq_specWalk (p : SoftwarePackage) : findDebs p = specWalk p := by
  generalize hn : sizeOf p = n
  induction n using Nat.strong_induction_on generalizing p with
  | _ n ih =>
    cases p with
    | mk nm rtp reqs =>
      cases reqs with
      | none =>
        simp only [findDebs, specWalk, specWalkChildren]
        cases h : (rtp == some "R") <;> simp [h, bne]
      | some subs =>
        have hsub : ∀ q ∈ subs, findDebs q = specWalk q := by
          intro q hq
          have h1 : sizeOf q < sizeOf subs := List.sizeOf_lt_of_mem hq
          have h2 : sizeOf subs < n := by
            subst hn; simp only [SoftwarePackage.mk.sizeOf_spec, Option.some.sizeOf_spec]
            omega
          exact ih (sizeOf q) (by omega) q rfl
        simp only [findDebs, specWalk, findDebsList_eq_of_ih subs hsub]
        cases h : (rtp == some "R") <;> simp [h, bne]

/-- C1: the R adapter's `aptPackages` is exactly the spec's dependency
walk (names of `deb`-tagged packages reachable through chains of
`R`-tagged packages, in input traversal order, duplicates kept, empty
string substituted for an absent name, different-ecosystem subtrees
excluded) followed by the ecosystem base package `r-base`; on the spec's
example forest it returns B's and D's names and excludes E's. -/
theorem rAptPackages_eq_specWalk :
    (∀ (environ : SoftwareEnvironment) (sysVersion : String),
      rAptPackages environ sysVersion =
        ((environ.softwareRequirements.getD []).flatMap specWalk) ++ ["r-base"]) ∧
    rAptPackages exampleForestEnv "ubuntu:16.04" = ["B", "D", "r-base"] := by
  constructor
  · intro environ sysVersion
    have h : ∀ l : List SoftwarePackage, l.flatMap findDebs = l.flatMap specWalk := by
      intro l
      induction l with
      | nil => rfl
      | cons p rest ihl => simp [List.flatMap_cons, findDebs_eq_specWalk p, ihl]
    simp [rAptPackages, h]
  · simp [rAptPackages, exampleForestEnv, findDebs, findDebsList,
      SoftwarePackage.runtimePlatform, SoftwarePackage.name]

theorem generate_eq_sections (a : Adapter) (comments : Bool) (version now : String)
    (h : a.applies = true) :
    generate a comments version now =
      generateHeader comments version now ++ String.join (composerSections a comments) := by
  simp only [generate, generateHeader, composerSections, sectionBaseImage, sectionEnv,
    sectionRepoBootstrap, sectionRepoAdd, sectionKeyRegistration, sectionSystemPackages,
    sectionEcosystemBootstrap, sectionPrivilegeDrop, sectionManagedMarker,
    sectionInstallFilesCopy, sectionInstallRun, sectionProjectFilesCopy, sectionRunCommand,
    String.join, List.foldl, h, Bool.not_true, if_false, Bool.false_eq_true,
    String.empty_append, String.append_empty, String.append_assoc]

/-- C3: with `applies()` true, the composed output is exactly the
header material followed by the §4.3 sections joined in their fixed
order — base image, environment, repository bootstrap, repository-add,
key registration, system-package install, ecosystem bootstrap,
privilege drop (always emitted), managed-install marker, install-file
staging, install command, project-file staging, run command — so every
non-empty optional section appears in that order and the privilege drop
sits after every root-requiring step and before every subsequent one. -/
theorem generate_fixed_section_order (a : Adapter) (comments : Bool) (version now : String)
    (h : a.applies = true) :
    generate a comments version now =
      generateHeader comments version now ++ String.join (composerSections a comments) :=
  generate_eq_sections a comments version now h

theorem generate_fixed_section_order_witness :
    generate (rAdapter sampleEnv sampleFs "2018-10-05" true "T") false "1.0.0" "now" =
      generateHeader false "1.0.0" "now" ++
        String.join (composerSections (rAdapter sampleEnv sampleFs "2018-10-05" true "T") false) :=
  generate_fixed_section_order (rAdapter sampleEnv sampleFs "2018-10-05" true "T")
    false "1.0.0" "now" rfl

/-- C2: when `applies()` is false the composer returns exactly the base
image line (plus, with comments on, only the leading comment material),
regardless of every other adapter capability. -/
theorem generate_early_return (a : Adapter) (version now : String)
    (h : a.applies = false) :
    generate a false version now = "FROM " ++ baseIdentifier a ++ "\n" ∧
    generate a true version now =
      generateHeader true version now ++ ("FROM " ++ baseIdentifier a ++ "\n") := by
  constructor <;>
    simp [generate, generateHeader, h, String.append_assoc]

theorem generate_early_return_witness :
    generate defaultAdapter false "1.0.0" "now" = "FROM " ++ baseIdentifier defaultAdapter ++ "\n" :=
  (generate_early_return defaultAdapter "1.0.0" "now" rfl).1

/-- C4 (code bug): the composer's assignment escaping,
`value.replace('"', '\\"')`, rewrites only the first embedded
double-quote, so a value with two quotes is emitted as `K="a\"b"c"` —
three unescaped quotes, not a single double-quoted shell token — whereas
escaping every quote would leave exactly the two delimiters unescaped. -/
theorem envPair_escapes_only_first_quote :
    envPair ("K", "a\"b\"c") = "K=\"a\\\"b\"c\"" ∧
    unescapedQuotes (envPair ("K", "a\"b\"c")).data = 3 ∧
    unescapedQuotes ("K=\"" ++ escapeAllQuotes "a\"b\"c" ++ "\"").data = 2 := by
  refine ⟨by decide, by decide, by decide⟩

theorem rInstallFiles_fst_nowIso (fs : FileSystem) (environ : SoftwareEnvironment)
    (date n₁ n₂ : String) :
    (rInstallFiles fs environ date n₁).1 = (rInstallFiles fs environ date n₂).1 := by
  cases h1 : fs.fileExists "install.R" <;> cases h2 : fs.fileExists "DESCRIPTION" <;>
    simp [rInstallFiles, h1, h2]

theorem rAdapter_nowIso_eq (environ : SoftwareEnvironment) (fs : FileSystem)
    (date : String) (ap : Bool) (n₁ n₂ : String) :
    rAdapter environ fs date ap n₁ = rAdapter environ fs date ap n₂ := by
  unfold rAdapter
  congr 1
  funext sysVersion
  exact rInstallFiles_fst_nowIso fs environ date n₁ n₂

/-- C5: with comments off the composition is a pure function of the
adapter alone — the version constant and the current timestamp (used
only in comment text, including the timestamp inside the synthesized R
descriptor's write log) never reach non-comment output, so composing
twice yields byte-identical text and, for the R adapter with a fixed
constructor-resolved date, all non-comment lines (the MRAN repository
line included) coincide across invocations. -/
theorem generate_no_comments_deterministic :
    (∀ (a : Adapter) (v₁ t₁ v₂ t₂ : String),
      generate a false v₁ t₁ = generate a false v₂ t₂) ∧
    (∀ (environ : SoftwareEnvironment) (fs : FileSystem) (date : String) (ap : Bool)
       (n₁ n₂ v₁ t₁ v₂ t₂ : String),
      generate (rAdapter environ fs date ap n₁) false v₁ t₁ =
        generate (rAdapter environ fs date ap n₂) false v₂ t₂) := by
  have base : ∀ (a : Adapter) (v₁ t₁ v₂ t₂ : String),
      generate a false v₁ t₁ = generate a false v₂ t₂ := fun _ _ _ _ _ => rfl
  refine ⟨base, fun environ fs date ap n₁ n₂ v₁ t₁ v₂ t₂ => ?_⟩
  rw [rAdapter_nowIso_eq environ fs date ap n₁ n₂]
  exact base _ _ _ _ _

/-- C6 counterexample: `baseVersionName` does not return an undefined
value for *every* unknown version — a version naming a property
inherited from `Object.prototype`, such as `constructor` or `toString`,
hits the prototype chain of the codename object literal and returns the
inherited member, which the repository line then renders as that
member's text instead of the literal `undefined`. -/
theorem baseVersionName_prototype_counterexample :
    baseVersionName "ubuntu:constructor" = JsLookup.inherited "constructor" ∧
    baseVersionName "ubuntu:constructor" ≠ JsLookup.undef ∧
    baseVersionName "ubuntu:toString" = JsLookup.inherited "toString" ∧
    jsInterpLookup (baseVersionName "ubuntu:constructor") ≠ "undefined" ∧
    rAptRepos "2018-10-05" "ubuntu:constructor" =
      ["deb https://mran.microsoft.com/snapshot/2018-10-05/bin/linux/ubuntu function Object() \x7b [native code] \x7d/"] := by
  refine ⟨by decide, by decide, by decide, by decide, by decide⟩

/-- C6 (amended): `baseVersionName` maps the known versions to their
codenames and returns `undefined` for any other version — including an
identifier with no version part — *except* versions naming properties
inherited from `Object.prototype`, where the JS bracket lookup returns
the inherited member instead; the adapter's repository line interpolates
an undefined codename as the literal text `undefined` instead of
failing, all the way into the composed repository-add section. -/
theorem baseVersionName_unknown_undefined :
    (baseVersionName "ubuntu:14.04" = JsLookup.str "trusty" ∧
     baseVersionName "ubuntu:16.04" = JsLookup.str "xenial" ∧
     baseVersionName "ubuntu:18.04" = JsLookup.str "bionic") ∧
    (baseVersionName "ubuntu" = JsLookup.undef ∧
     baseVersionName "ubuntu:20.04" = JsLookup.undef) ∧
    (∀ base : String, (jsSplitColon base)[1]? = none → baseVersionName base = JsLookup.undef) ∧
    (∀ base v : String, (jsSplitColon base)[1]? = some v →
      v ≠ "14.04" → v ≠ "16.04" → v ≠ "18.04" →
      objectPrototypeKeys.contains v = false → baseVersionName base = JsLookup.undef) ∧
    (∀ date base : String, baseVersionName base = JsLookup.undef →
      rAptRepos date base =
        ["deb https://mran.microsoft.com/snapshot/" ++ date ++ "/bin/linux/ubuntu undefined/"]) ∧
    sectionRepoAdd rAdapterUnknownBase false =
      "\nRUN apt-add-repository \"deb https://mran.microsoft.com/snapshot/2018-10-05/bin/linux/ubuntu undefined/\"\n" := by
  refine ⟨⟨by decide, by decide, by decide⟩, ⟨by decide, by decide⟩, ?_, ?_, ?_, by decide⟩
  · intro base h
    simp [baseVersionName, h]
  · intro base v h h14 h16 h18 hp
    have hp2 : v ∉ objectPrototypeKeys := by simpa using hp
    simp [baseVersionName, h, h14, h16, h18, hp2]
  · intro date base h
    simp only [rAptRepos, h, jsInterpLookup]
    simp [String.append_assoc]

theorem baseVersionName_unknown_undefined_witness :
    baseVersionName "ubuntu:99.99" = JsLookup.undef ∧
    baseVersionName "debian" = JsLookup.undef ∧
    rAptRepos "2018-10-05" "ubuntu:99.99" =
      ["deb https://mran.microsoft.com/snapshot/2018-10-05/bin/linux/ubuntu undefined/"] := by
  refine ⟨?_, ?_, ?_⟩
  · exact baseVersionName_unknown_undefined.2.2.2.1 "ubuntu:99.99" "99.99"
      (by decide) (by decide) (by decide) (by decide) (by decide)
  · exact baseVersionName_unknown_undefined.2.2.1 "debian" (by decide)
  · exact baseVersionName_unknown_undefined.2.2.2.2.1 "2018-10-05" "ubuntu:99.99"
      (baseVersionName_unknown_undefined.2.2.2.1 "ubuntu:99.99" "99.99"
        (by decide) (by decide) (by decide) (by decide) (by decide))

/-- C7: `runCommand` yields nothing when the glob finds no `*.R` file,
`Rscript main.R` when `main.R` is among the globbed files, else
`Rscript cmd.R` when `cmd.R` is, else `Rscript` on the first file of
the listing order. -/
theorem rRunCommand_selection :
    (∀ rfiles : List String, rfiles = [] → rRunCommand rfiles = none) ∧
    (∀ rfiles : List String, rfiles.contains "main.R" = true →
      rRunCommand rfiles = some "Rscript main.R") ∧
    (∀ rfiles : List String, rfiles.contains "main.R" = false →
      rfiles.contains "cmd.R" = true → rRunCommand rfiles = some "Rscript cmd.R") ∧
    (∀ (f0 : String) (rest : List String),
      (f0 :: rest).contains "main.R" = false → (f0 :: rest).contains "cmd.R" = false →
      rRunCommand (f0 :: rest) = some ("Rscript " ++ f0)) := by
  refine ⟨?_, ?_, ?_, ?_⟩
  · rintro _ rfl; rfl
  · intro rfiles h
    cases rfiles with
    | nil => simp at h
    | cons f0 rest =>
      show some ("Rscript " ++
        (if (f0 :: rest).contains "main.R" then "main.R"
         else if (f0 :: rest).contains "cmd.R" then "cmd.R" else f0)) = some "Rscript main.R"
      rw [h]; rfl
  · intro rfiles h1 h2
    cases rfiles with
    | nil => simp at h2
    | cons f0 rest =>
      show some ("Rscript " ++
        (if (f0 :: rest).contains "main.R" then "main.R"
         else if (f0 :: rest).contains "cmd.R" then "cmd.R" else f0)) = some "Rscript cmd.R"
      rw [h1, h2]; rfl
  · intro f0 rest h1 h2
    show some ("Rscript " ++
      (if (f0 :: rest).contains "main.R" then "main.R"
       else if (f0 :: rest).contains "cmd.R" then "cmd.R" else f0)) = some ("Rscript " ++ f0)
    rw [h1, h2]; rfl

theorem rRunCommand_selection_witness :
    rRunCommand [] = none ∧
    rRunCommand ["analysis.R", "main.R"] = some "Rscript main.R" ∧
    rRunCommand ["analysis.R", "cmd.R"] = some "Rscript cmd.R" ∧
    rRunCommand ["analysis.R", "plot.R"] = some ("Rscript " ++ "analysis.R") :=
  ⟨rRunCommand_selection.1 [] rfl,
   rRunCommand_selection.2.1 ["analysis.R", "main.R"] (by decide),
   rRunCommand_selection.2.2.1 ["analysis.R", "cmd.R"] (by decide) (by decide),
   rRunCommand_selection.2.2.2 "analysis.R" ["plot.R"] (by decide) (by decide)⟩

/-- C8: `installFiles` precedence — a user-authored `install.R` on disk
is copied and nothing else happens; otherwise a user `DESCRIPTION` is
copied; otherwise a `.DESCRIPTION` descriptor synthesized from the
environment's name and R packages is written through the filesystem
collaborator and copied into the image as `DESCRIPTION`. -/
theorem rInstallFiles_precedence (fs : FileSystem) (environ : SoftwareEnvironment)
    (date nowIso : String) :
    (fs.fileExists "install.R" = true →
      rInstallFiles fs environ date nowIso = ([("install.R", "install.R")], [])) ∧
    (fs.fileExists "install.R" = false → fs.fileExists "DESCRIPTION" = true →
      rInstallFiles fs environ date nowIso = ([("DESCRIPTION", "DESCRIPTION")], [])) ∧
    (fs.fileExists "install.R" = false → fs.fileExists "DESCRIPTION" = false →
      rInstallFiles fs environ date nowIso =
        ([(".DESCRIPTION", "DESCRIPTION")],
         [(".DESCRIPTION", rDescription environ date nowIso)])) := by
  refine ⟨fun h1 => ?_, fun h1 h2 => ?_, fun h1 h2 => ?_⟩ <;>
    simp [rInstallFiles, h1]
  · simp [h2]
  · simp [h2]

theorem rInstallFiles_precedence_witness :
    rInstallFiles fsInstallR sampleEnv "2018-10-05" "T" = ([("install.R", "install.R")], []) ∧
    rInstallFiles fsDescOnly sampleEnv "2018-10-05" "T" = ([("DESCRIPTION", "DESCRIPTION")], []) ∧
    rInstallFiles sampleFs sampleEnv "2018-10-05" "T" =
      ([(".DESCRIPTION", "DESCRIPTION")],
       [(".DESCRIPTION", rDescription sampleEnv "2018-10-05" "T")]) :=
  ⟨(rInstallFiles_precedence fsInstallR sampleEnv "2018-10-05" "T").1 (by decide),
   (rInstallFiles_precedence fsDescOnly sampleEnv "2018-10-05" "T").2.1 (by decide) (by decide),
   (rInstallFiles_precedence sampleFs sampleEnv "2018-10-05" "T").2.2 (by decide) (by decide)⟩

theorem mkdirR_append_ne_empty (r : String) : (("mkdir ~/R" ++ r) == "") = false := by
  rw [beq_eq_false_iff_ne]
  intro h
  have h2 := congrArg String.length h
  rw [String.length_append] at h2
  have h3 : ("mkdir ~/R" : String).length = 9 := rfl
  have h4 : ("" : String).length = 0 := rfl
  omega

/-- C9: `installCommand` is total — for every filesystem state it is
present and begins with `mkdir ~/R` — so whenever `applies()` holds the
composer always emits the `# dockter` managed-install marker and an
install `RUN` step, even though the contract lists the capability as
optional. -/
theorem rInstallCommand_total_marker_emitted :
    (∀ fs : FileSystem, ∃ rest : String,
      rInstallCommand fs = some ("mkdir ~/R" ++ rest) ∧
      jsTruthy (rInstallCommand fs) = true) ∧
    (∀ (environ : SoftwareEnvironment) (fs : FileSystem) (date nowIso v t : String),
      ∃ pre mid post : String,
        generate (rAdapter environ fs date true nowIso) false v t =
          pre ++ "\n# dockter\n" ++ mid
            ++ ("\nRUN " ++ jsInterp (rInstallCommand fs) ++ "\n") ++ post ∧
        jsInterp (rInstallCommand fs) = "mkdir ~/R" ++
          (if fs.fileExists "install.R" then " \\\n && Rscript install.R"
           else if fs.fileExists "DESCRIPTION" || fs.fileExists ".DESCRIPTION" then
             " \\\n && bash -c \"Rscript <(curl -sL https://unpkg.com/@stencila/dockter/src/install.R)\""
           else "")) := by
  constructor
  · intro fs
    refine ⟨_, rfl, ?_⟩
    simp [jsTruthy, rInstallCommand, mkdirR_append_ne_empty]
  · intro environ fs date nowIso v t
    have hap : (rAdapter environ fs date true nowIso).applies = true := rfl
    have hmark : sectionManagedMarker (rAdapter environ fs date true nowIso) false =
        "\n# dockter\n" := by
      simp [sectionManagedMarker, rAdapter, jsTruthy, rInstallCommand, mkdirR_append_ne_empty]
    have hrun : sectionInstallRun (rAdapter environ fs date true nowIso) false =
        "\nRUN " ++ jsInterp (rInstallCommand fs) ++ "\n" := by
      simp [sectionInstallRun, rAdapter, jsTruthy, rInstallCommand, mkdirR_append_ne_empty,
        jsInterp]
    refine ⟨sectionBaseImage (rAdapter environ fs date true nowIso)
        ++ sectionEnv (rAdapter environ fs date true nowIso) false
        ++ sectionRepoBootstrap (rAdapter environ fs date true nowIso) false
        ++ sectionRepoAdd (rAdapter environ fs date true nowIso) false
        ++ sectionKeyRegistration (rAdapter environ fs date true nowIso)
        ++ sectionSystemPackages (rAdapter environ fs date true nowIso) false
        ++ sectionEcosystemBootstrap (rAdapter environ fs date true nowIso) false
        ++ sectionPrivilegeDrop false,
      sectionInstallFilesCopy (rAdapter environ fs date true nowIso) false,
      sectionProjectFilesCopy (rAdapter environ fs date true nowIso) false
        ++ sectionRunCommand (rAdapter environ fs date true nowIso) false, ?_, rfl⟩
    rw [generate_eq_sections _ false v t hap]
    rw [← hmark, ← hrun]
    simp only [composerSections, String.join, List.foldl, generateHeader, if_false,
      Bool.false_eq_true, String.empty_append, String.append_empty, String.append_assoc]

/-- C10: a `deb`-tagged package sitting directly at the top level of
`softwareRequirements` is never recorded by the dependency walk — it is
visited only as a potential descent root and contributes nothing — so an
environment whose only top-level requirement is native-tagged yields
just `r-base`. -/
theorem toplevel_native_not_recorded :
    (∀ (nm : Option String) (ch : Option (List SoftwarePackage)),
      findDebs (SoftwarePackage.mk nm (some "deb") ch) = []) ∧
    (∀ (pre suf : List SoftwarePackage) (nm : Option String)
        (ch : Option (List SoftwarePackage)),
      (pre ++ SoftwarePackage.mk nm (some "deb") ch :: suf).flatMap findDebs =
        (pre ++ suf).flatMap findDebs) ∧
    (∀ (envName envDate nm : Option String) (ch : Option (List SoftwarePackage))
        (sysVersion : String),
      rAptPackages ⟨envName, envDate, some [SoftwarePackage.mk nm (some "deb") ch]⟩ sysVersion
        = ["r-base"]) := by
  have h1 : ∀ (nm : Option String) (ch : Option (List SoftwarePackage)),
      findDebs (SoftwarePackage.mk nm (some "deb") ch) = [] := by
    intro nm ch
    cases ch <;> simp [findDebs]
  refine ⟨h1, ?_, ?_⟩
  · intro pre suf nm ch
    simp [List.flatMap_append, List.flatMap_cons, h1]
  · intro envName envDate nm ch sysVersion
    simp [rAptPackages, h1]

end Dockta
